import Mathlib

/-!
Verification of the Music-DJ server (`server.js`) against its specification.

The embedding models the four request handlers the claims are about:
`POST /api/playlists/generate`, `GET /api/stats/top-tracks`,
`GET /api/playlists/:id` and `DELETE /api/tracks/:id`, together with the
JavaScript value semantics the generation pipeline depends on (truthiness,
`||` defaulting, strict equality, `parseInt`).  JavaScript numbers are
modelled as rationals; `NaN` does not occur in the modelled fragment.
-/

namespace MusicDJ

/-- A JavaScript value as produced by `JSON.parse`, extended with `vundefined`
for the `undefined` obtained when reading an absent object property. -/
inductive JVal where
  | vundefined : JVal
  | vnull : JVal
  | vbool : Bool → JVal
  | vnum : ℚ → JVal
  | vstr : String → JVal
  | varr : List JVal → JVal
  | vobj : List (String × JVal) → JVal
deriving Repr

/-- JavaScript property read `v.k`.  Reading a property of a non-object
yields `undefined`; on `null`/`undefined` it throws, but every such throw in
the modelled handler lands in the same catch-all (HTTP 500) as a failed
truthiness check, so `vundefined` is observationally adequate there. -/
def getField (v : JVal) (k : String) : JVal :=
  match v with
  | .vobj kvs =>
      match kvs.find? (fun kv => kv.1 == k) with
      | some kv => kv.2
      | none => .vundefined
  | _ => .vundefined

/-- JavaScript truthiness.  (`NaN`, the one falsy number besides `±0`, is not
representable in ℚ and does not arise in the modelled fragment.) -/
def truthy : JVal → Bool
  | .vundefined => false
  | .vnull => false
  | .vbool b => b
  | .vnum q => !(q == 0)
  | .vstr s => !(s == "")
  | .varr _ => true
  | .vobj _ => true

def isArray : JVal → Bool
  | .varr _ => true
  | _ => false

def asArray : JVal → List JVal
  | .varr xs => xs
  | _ => []

/-- JavaScript `a || b`. -/
def jsOr (a b : JVal) : JVal := if truthy a then a else b

/-- JavaScript strict equality `s === v` where `s` is known to be a string
(the `tracks.id` uuid column): true only against an equal string. -/
def strEqJs (s : String) (v : JVal) : Bool :=
  match v with
  | .vstr s2 => s == s2
  | _ => false

/-- A row of the `tracks` table (the fields the modelled handlers read). -/
structure Track where
  id : String
  original_name : String
  selection_count : Nat
deriving Repr, DecidableEq

/-- A row of the `playlists` table.  Database-generated ids are modelled as
naturals handed out freshly. -/
structure Playlist where
  id : Nat
  mood_prompt : String
deriving Repr, DecidableEq

/-- A row of the `playlist_tracks` junction table.  The `weight` column
receives whatever JavaScript value the handler sends. -/
structure PlaylistTrack where
  playlist_id : Nat
  track_id : String
  position : Nat
  weight : JVal
deriving Repr

/-- The Redis `top-tracks` entry: the cached snapshot plus its absolute
expiry instant (`setex` with TTL 300 stores `now + 300`). -/
structure CacheEntry where
  snapshot : List Track
  expiry : Nat
deriving Repr, DecidableEq

/-- Server-visible state: the three tables, the Redis entry, and the clock. -/
structure ServerState where
  tracks : List Track
  playlists : List Playlist
  playlist_tracks : List PlaylistTrack
  cache : Option CacheEntry
  now : Nat
deriving Repr

/-- JavaScript `String.prototype.trim`: strip leading and trailing
whitespace. -/
def jsTrim (s : String) : String :=
  String.mk ((((s.toList).dropWhile Char.isWhitespace).reverse.dropWhile
    Char.isWhitespace).reverse)

def digitsToNat (cs : List Char) : Nat :=
  cs.foldl (fun a c => 10 * a + (c.toNat - 48)) 0

def isHexDigitJs (c : Char) : Bool :=
  c.isDigit || ('a' ≤ c && c ≤ 'f') || ('A' ≤ c && c ≤ 'F')

def hexDigitVal (c : Char) : Nat :=
  if c.isDigit then c.toNat - 48
  else if 'a' ≤ c && c ≤ 'f' then c.toNat - 87
  else c.toNat - 55

/-- JavaScript `parseInt(s)` with no radix argument: skip whitespace, take an
optional sign, then a `0x`/`0X` hex literal or a run of leading decimal
digits; `none` models `NaN` (no digits at all). -/
def parseIntJs (s : String) : Option Int :=
  let cs := (jsTrim s).toList
  let signAndRest : Int × List Char :=
    match cs with
    | '-' :: r => (-1, r)
    | '+' :: r => (1, r)
    | r => (1, r)
  match signAndRest with
  | (sign, cs1) =>
    match cs1 with
    | '0' :: x :: r =>
        if x = 'x' ∨ x = 'X' then
          match r.takeWhile isHexDigitJs with
          | [] => none
          | ds => some (sign * (ds.foldl (fun a c => 16 * a + hexDigitVal c) 0 : Nat))
        else
          some (sign * digitsToNat (cs1.takeWhile Char.isDigit))
    | _ =>
        match cs1.takeWhile Char.isDigit with
        | [] => none
        | ds => some (sign * digitsToNat ds)

/-- `const limit = parseInt(req.query.limit) || 10` (server.js line 283):
`NaN` (including an absent query parameter) and `0` are falsy and fall back
to 10. -/
def parseLimit (q : Option String) : Int :=
  match q with
  | none => 10
  | some s =>
      match parseIntJs s with
      | none => 10
      | some n => if n = 0 then 10 else n

/-- Stable descending insertion by `selection_count` (the element is placed
before the first strictly smaller count). -/
def insertDesc (t : Track) : List Track → List Track
  | [] => [t]
  | u :: us =>
      if u.selection_count < t.selection_count then t :: u :: us
      else u :: insertDesc t us

/-- The supabase query of server.js lines 295-300:
`select * gt(selection_count, 0) order(selection_count desc) limit(limit)`.
The database guarantees no tie order; the model fixes the stable one.  A
negative limit is modelled as an empty result. -/
def topTracksQuery (db : List Track) (limit : Int) : List Track :=
  ((db.filter (fun t => 0 < t.selection_count)).foldl
    (fun acc t => insertDesc t acc) []).take limit.toNat

/-- Outcome of `POST /api/playlists/generate`: 400, 500 (the catch-all), or
200 with the created playlist row. -/
inductive GenResult where
  | badRequest : String → GenResult
  | serverError : GenResult
  | ok : Playlist → GenResult
deriving Repr, DecidableEq

/-- Validation of the parsed Gemini response (server.js lines 203-208).  The
input is the result of `JSON.parse` on the fence-stripped text, `none` when
the parse threw.  The code accepts iff `geminiResponse.tracks` is truthy and
`Array.isArray` holds of it; note an empty array passes both tests. -/
def validateResponse (parsed : Option JVal) : Option (List JVal) :=
  match parsed with
  | none => none
  | some v =>
      let t := getField v "tracks"
      if truthy t && isArray t then some (asArray t) else none

/-- `tracks.find(t => t.id === selectedTrack.id)` (server.js line 225):
resolve one selection record against the snapshot of the catalog. -/
def resolveSel (snapshot : List Track) (sel : JVal) : Option Track :=
  snapshot.find? (fun t => strEqJs t.id (getField sel "id"))

/-- The `selection_count` of the first row with the given id (`none` when no
row matches). -/
def dbCount (db : List Track) (x : String) : Option Nat :=
  (db.find? (fun t => t.id == x)).map (fun t => t.selection_count)

/-- Whether some selection record resolves to a snapshot row with this id. -/
def selectedBy (sels : List JVal) (snapshot : List Track) (x : String) : Bool :=
  sels.any (fun sel =>
    match resolveSel snapshot sel with
    | some tr => tr.id == x
    | none => false)

/-- Whether the weight value a record sends to the database is a genuine
number: the record's weight field is either a number (kept by `||`) or
falsy (so the numeric default `0.5` is sent).  The schema declares the
`playlist_tracks.weight` column `FLOAT`, so on this domain the row insert
cannot fail its cast; a truthy non-numeric weight would instead make the
insert error and `if (ptError) continue` (server.js lines 241-244) drop the
record, a path outside this model. -/
def floatWeight (sel : JVal) : Bool :=
  match getField sel "weight" with
  | .vnum _ => true
  | w => !truthy w

/-- Overwrite the `selection_count` of every row whose id matches
(`update({selection_count: n}).eq('id', id)`, server.js lines 247-250). -/
def updateCount (db : List Track) (id : String) (n : Nat) : List Track :=
  db.map (fun t => if t.id = id then { t with selection_count := n } else t)

/-- The insertion loop of server.js lines 222-259.  `snapshot` is the track
list fetched at line 151 (the loop reads counts from it, never from the
database's current rows); `i` is the loop index; `db` the evolving `tracks`
table.  A selection whose id resolves to no snapshot row is skipped
(`continue`); otherwise one `playlist_tracks` row is inserted with position
`i + 1` and weight `selectedTrack.weight || 0.5`, and the track's count is
overwritten with its snapshot count plus one.  The insert-failure path of
lines 241-244 (`if (ptError) continue`) is not modelled; with the schema's
`FLOAT` weight column it is reachable exactly when a truthy non-numeric
weight value fails the cast, so the weight law below is stated only for
records satisfying `floatWeight`, where that path is never taken. -/
def insertLoop (snapshot : List Track) (pid : Nat) :
    List JVal → Nat → List Track → List PlaylistTrack × List Track
  | [], _, db => ([], db)
  | sel :: rest, i, db =>
      match resolveSel snapshot sel with
      | none => insertLoop snapshot pid rest (i + 1) db
      | some track =>
          let entry : PlaylistTrack :=
            { playlist_id := pid, track_id := track.id, position := i + 1,
              weight := jsOr (getField sel "weight") (.vnum (1 / 2)) }
          let db2 := updateCount db track.id (track.selection_count + 1)
          match insertLoop snapshot pid rest (i + 1) db2 with
          | (entries, db3) => (entry :: entries, db3)

/-- Fresh database-generated playlist id. -/
def freshPlaylistId (st : ServerState) : Nat := st.playlists.length

/-- `POST /api/playlists/generate` (server.js lines 142-278).  `mood` is the
request body's mood string; `parsed` is the result of `JSON.parse` on the
Gemini response text after fence stripping (`none` when unparseable) —
the external Gemini call itself is opaque and only its parsed text matters
to the handler.  Order of effects follows the source: mood check, catalog
fetch and emptiness check, Gemini call, parse, validation, playlist row
insert, the per-selection loop, cache invalidation. -/
def generateHandler (st : ServerState) (mood : String) (parsed : Option JVal) :
    GenResult × ServerState :=
  if jsTrim mood = "" then (.badRequest "Mood prompt is required", st)
  else if st.tracks.isEmpty then
    (.badRequest "No tracks available. Please upload some music first.", st)
  else
    match validateResponse parsed with
    | none => (.serverError, st)
    | some sels =>
        let pid := freshPlaylistId st
        let playlist : Playlist := { id := pid, mood_prompt := mood }
        match insertLoop st.tracks pid sels 0 st.tracks with
        | (entries, db2) =>
            (.ok playlist,
              { st with
                  tracks := db2,
                  playlists := st.playlists ++ [playlist],
                  playlist_tracks := st.playlist_tracks ++ entries,
                  cache := none })

/-- Outcome of `GET /api/stats/top-tracks`. -/
inductive StatsResult where
  | ok : List Track → StatsResult
  | serverError : StatsResult
deriving Repr, DecidableEq

/-- `GET /api/stats/top-tracks` (server.js lines 281-312).  `cacheUp` models
reachability of the Redis layer: when it is down, `await redis.get` rejects
and control lands in the catch block, which answers 500.  When it is up: a
present, unexpired entry is returned verbatim; otherwise the handler
recomputes with the parsed limit and repopulates the entry with TTL 300. -/
def statsHandler (st : ServerState) (limitParam : Option String)
    (cacheUp : Bool) : StatsResult × ServerState :=
  if !cacheUp then (.serverError, st)
  else
    let limit := parseLimit limitParam
    let recompute : StatsResult × ServerState :=
      let top := topTracksQuery st.tracks limit
      (.ok top, { st with cache := some { snapshot := top, expiry := st.now + 300 } })
    match st.cache with
    | some entry => if st.now < entry.expiry then (.ok entry.snapshot, st) else recompute
    | none => recompute

/-- Outcome of `GET /api/playlists/:id`. -/
inductive PlaylistFetchResult where
  | ok : Playlist → List PlaylistTrack → PlaylistFetchResult
  | serverError : PlaylistFetchResult
deriving Repr

/-- `GET /api/playlists/:id` (server.js lines 338-361).  `.single()` yields
an error row when no playlist matches; the handler rethrows it
(`if (error) throw error`), so the catch block answers 500 — there is no
404 branch. -/
def getPlaylistHandler (st : ServerState) (pid : Nat) : PlaylistFetchResult :=
  match st.playlists.find? (fun p => p.id = pid) with
  | none => .serverError
  | some p => .ok p (st.playlist_tracks.filter (fun e => e.playlist_id = p.id))

/-- Outcome of `DELETE /api/tracks/:id`. -/
inductive DeleteResult where
  | ok : DeleteResult
  | notFound : DeleteResult
  | serverError : DeleteResult
deriving Repr, DecidableEq

/-- `DELETE /api/tracks/:id` (server.js lines 364-401): a fetch miss answers
404; otherwise the row is removed (the schema's `ON DELETE CASCADE` also
removes referencing `playlist_tracks` rows) and the cache is invalidated. -/
def deleteTrackHandler (st : ServerState) (id : String) :
    DeleteResult × ServerState :=
  match st.tracks.find? (fun t => t.id = id) with
  | none => (.notFound, st)
  | some _ =>
      (.ok,
        { st with
            tracks := st.tracks.filter (fun t => t.id ≠ id),
            playlist_tracks := st.playlist_tracks.filter (fun e => e.track_id ≠ id),
            cache := none })

/-- HTTP status of a generation outcome. -/
def genStatus : GenResult → Nat
  | .badRequest _ => 400
  | .serverError => 500
  | .ok _ => 200

/-- HTTP status of a playlist fetch outcome. -/
def playlistFetchStatus : PlaylistFetchResult → Nat
  | .ok _ _ => 200
  | .serverError => 500

/-- HTTP status of a track deletion outcome. -/
def deleteStatus : DeleteResult → Nat
  | .ok => 200
  | .notFound => 404
  | .serverError => 500

/-- HTTP status of a top-tracks outcome. -/
def statsStatus : StatsResult → Nat
  | .ok _ => 200
  | .serverError => 500

/-- Run a list of generation requests sequentially (each sees the state the
previous one left behind). -/
def genSeq (st : ServerState) : List (String × Option JVal) → ServerState
  | [] => st
  | (m, p) :: rest => genSeq (generateHandler st m p).2 rest

/-- Every step of the request list is a generation that succeeds and whose
validated selections resolve to the track `x` (at least once), evaluated
against the state current at that step. -/
def stepsSelect (x : String) : ServerState → List (String × Option JVal) → Bool
  | _, [] => true
  | st, (m, p) :: rest =>
      (!(jsTrim m == "") && !st.tracks.isEmpty &&
        (match validateResponse p with
         | none => false
         | some sels => selectedBy sels st.tracks x)) &&
      stepsSelect x (generateHandler st m p).2 rest

/-! ### Concrete scenario data -/

/-- A catalog row used in the concrete scenarios. -/
def trackA : Track := { id := "A", original_name := "A.mp3", selection_count := 0 }

/-- A second catalog row with a nonzero usage counter. -/
def trackB : Track := { id := "B", original_name := "B.mp3", selection_count := 2 }

/-- One-track catalog, empty playlist tables, cold cache. -/
def stateA : ServerState :=
  { tracks := [trackA], playlists := [], playlist_tracks := [], cache := none,
    now := 0 }

/-- A state holding an unexpired cache snapshot that differs from what a
recomputation over its catalog would produce. -/
def cachedState : ServerState :=
  { tracks := [trackB], playlists := [], playlist_tracks := [],
    cache := some { snapshot := [trackA], expiry := 100 }, now := 50 }

/-- A parsed selection record `{id: i, weight: w}`. -/
def selRec (i : String) (w : JVal) : JVal :=
  .vobj [("id", .vstr i), ("weight", w)]

/-- Parsed response whose only selection references an unknown id. -/
def respUnknown : JVal :=
  .vobj [("tracks", .varr [selRec "ZZZ" (.vnum (9 / 10))])]

/-- Parsed response with one unknown selection followed by a known one. -/
def respMixed : JVal :=
  .vobj [("tracks",
    .varr [selRec "ZZZ" (.vnum (9 / 10)), selRec "A" (.vnum (4 / 5))])]

/-- Parsed response selecting the known track with numeric weight `0.0`. -/
def respZeroWeight : JVal :=
  .vobj [("tracks", .varr [selRec "A" (.vnum 0)])]

/-- Parsed response selecting the same known track twice. -/
def respDup : JVal :=
  .vobj [("tracks",
    .varr [selRec "A" (.vnum (9 / 10)), selRec "A" (.vnum (4 / 5))])]

/-- Parsed response whose `tracks` field is an empty array. -/
def respEmpty : JVal := .vobj [("tracks", .varr [])]

/-! ### Helper lemmas about the embedded operations -/

theorem find?_cons_eq {α : Type} (p : α → Bool) (a : α) (l : List α) :
    (a :: l).find? p = if p a then some a else l.find? p := by
  cases h : p a <;> simp [List.find?_cons, h]

theorem strEqJs_eq_true {s : String} {v : JVal} :
    strEqJs s v = true ↔ v = .vstr s := by
  cases v with
  | vstr a =>
      constructor
      · intro h
        have hsa : s = a := by simpa [strEqJs] using h
        rw [hsa]
      · intro h
        injection h with h
        simp [strEqJs, h]
  | vundefined => simp [strEqJs]
  | vnull => simp [strEqJs]
  | vbool b => simp [strEqJs]
  | vnum q => simp [strEqJs]
  | varr xs => simp [strEqJs]
  | vobj kvs => simp [strEqJs]

theorem find?_strEqJs {l : List Track} {v : JVal} {tr : Track}
    (h : l.find? (fun t => strEqJs t.id v) = some tr) :
    v = .vstr tr.id ∧ l.find? (fun t => t.id == tr.id) = some tr := by
  induction l with
  | nil => simp at h
  | cons t ts ih =>
      rw [find?_cons_eq] at h
      by_cases hp : strEqJs t.id v = true
      · rw [if_pos hp] at h
        injection h with h
        subst h
        exact ⟨strEqJs_eq_true.mp hp, by rw [find?_cons_eq, if_pos (by simp)]⟩
      · rw [if_neg hp] at h
        obtain ⟨hv, hf⟩ := ih h
        refine ⟨hv, ?_⟩
        rw [find?_cons_eq, if_neg, hf]
        subst hv
        simpa [strEqJs] using hp

theorem resolveSel_some {snapshot : List Track} {sel : JVal} {tr : Track}
    (h : resolveSel snapshot sel = some tr) :
    dbCount snapshot tr.id = some tr.selection_count := by
  obtain ⟨_, hf⟩ := find?_strEqJs h
  rw [dbCount, hf]
  rfl

theorem dbCount_cons (t : Track) (ts : List Track) (x : String) :
    dbCount (t :: ts) x =
      if t.id = x then some t.selection_count else dbCount ts x := by
  rw [dbCount, find?_cons_eq]
  by_cases h : t.id = x
  · rw [if_pos (by simpa using h), if_pos h]
    rfl
  · rw [if_neg (by simpa using h), if_neg h, dbCount]

theorem dbCount_updateCount (db : List Track) (i : String) (n : Nat)
    (x : String) :
    dbCount (updateCount db i n) x =
      if x = i then (dbCount db x).map (fun _ => n) else dbCount db x := by
  induction db with
  | nil =>
      simp only [updateCount, List.map_nil]
      split <;> rfl
  | cons t ts ih =>
      simp only [updateCount, List.map_cons] at ih ⊢
      by_cases hti : t.id = i
      · by_cases htx : t.id = x
        · have hxi : x = i := by rw [← htx, hti]
          simp [dbCount_cons, hti, htx, hxi]
        · have hxi : ¬x = i := fun hc => htx (hti.trans hc.symm)
          have hix : ¬i = x := fun hc => hxi hc.symm
          simp [dbCount_cons, hti, htx, hxi, hix, ih]
      · by_cases htx : t.id = x
        · have hxi : ¬x = i := fun hc => hti (htx.trans hc)
          simp [dbCount_cons, hti, htx, hxi]
        · simp [dbCount_cons, hti, htx, ih]

theorem dbCount_updateCount_isSome (db : List Track) (i : String) (n : Nat)
    (x : String) :
    (dbCount (updateCount db i n) x).isSome = (dbCount db x).isSome := by
  rw [dbCount_updateCount]
  split <;> simp

theorem insertLoop_all_unknown (snapshot : List Track) (pid : Nat)
    (sels : List JVal) (i : Nat) (db : List Track)
    (h : ∀ sel ∈ sels, resolveSel snapshot sel = none) :
    insertLoop snapshot pid sels i db = ([], db) := by
  induction sels generalizing i with
  | nil => rfl
  | cons sel rest ih =>
      simp only [insertLoop, h sel (List.mem_cons_self sel rest)]
      exact ih (i + 1) (fun s hs => h s (List.mem_cons_of_mem sel hs))

theorem insertLoop_entries (snapshot : List Track) (pid : Nat)
    (sels : List JVal) (i : Nat) (db : List Track) :
    (insertLoop snapshot pid sels i db).1 =
      (List.enumFrom i sels).filterMap (fun p =>
        (resolveSel snapshot p.2).map (fun tr =>
          ({ playlist_id := pid, track_id := tr.id, position := p.1 + 1,
             weight := jsOr (getField p.2 "weight") (.vnum (1 / 2)) } :
            PlaylistTrack))) := by
  induction sels generalizing i db with
  | nil => rfl
  | cons sel rest ih =>
      cases hres : resolveSel snapshot sel with
      | none => simp [insertLoop, List.enumFrom, hres, ih]
      | some tr => simp [insertLoop, List.enumFrom, hres, ih]

theorem selectedBy_cons (sel : JVal) (rest : List JVal)
    (snapshot : List Track) (x : String) :
    selectedBy (sel :: rest) snapshot x =
      ((match resolveSel snapshot sel with
        | some tr => tr.id == x
        | none => false) || selectedBy rest snapshot x) := by
  simp [selectedBy]

theorem insertLoop_count (snapshot : List Track) (pid : Nat)
    (sels : List JVal) (i : Nat) (db : List Track) (x : String)
    (hdom : ∀ s, (dbCount snapshot s).isSome = true →
      (dbCount db s).isSome = true) :
    dbCount (insertLoop snapshot pid sels i db).2 x =
      if selectedBy sels snapshot x then
        (dbCount snapshot x).map (fun n => n + 1)
      else dbCount db x := by
  induction sels generalizing i db with
  | nil => simp [insertLoop, selectedBy]
  | cons sel rest ih =>
      cases hres : resolveSel snapshot sel with
      | none =>
          rw [selectedBy_cons, hres]
          simpa only [insertLoop, hres, Bool.false_or] using ih (i + 1) db hdom
      | some tr =>
          have hdom2 : ∀ s, (dbCount snapshot s).isSome = true →
              (dbCount (updateCount db tr.id (tr.selection_count + 1)) s).isSome
                = true := by
            intro s hs
            rw [dbCount_updateCount_isSome]
            exact hdom s hs
          rw [selectedBy_cons, hres]
          have hloop :
              dbCount (insertLoop snapshot pid (sel :: rest) i db).2 x =
                dbCount
                  (insertLoop snapshot pid rest (i + 1)
                    (updateCount db tr.id (tr.selection_count + 1))).2 x := by
            simp only [insertLoop, hres]
          rw [hloop, ih (i + 1) _ hdom2]
          by_cases hrest : selectedBy rest snapshot x = true
          · simp only [hrest, if_pos, Bool.or_true]
          · rw [Bool.not_eq_true] at hrest
            simp only [hrest, Bool.or_false, if_neg Bool.false_ne_true,
              dbCount_updateCount]
            by_cases hx : x = tr.id
            · subst hx
              have hcnt := resolveSel_some hres
              have hdb := hdom _ (by rw [hcnt]; rfl)
              obtain ⟨m, hm⟩ := Option.isSome_iff_exists.mp hdb
              simp [hcnt, hm]
            · have hxb : (tr.id == x) = false := by
                simpa using (fun hc : tr.id = x => hx hc.symm)
              simp [hx, hxb]

theorem generate_success_spec (st : ServerState) (mood : String)
    (parsed : Option JVal) (sels : List JVal)
    (hmood : ¬jsTrim mood = "") (hcat : st.tracks.isEmpty = false)
    (hval : validateResponse parsed = some sels) :
    generateHandler st mood parsed =
      (.ok { id := st.playlists.length, mood_prompt := mood },
       { tracks := (insertLoop st.tracks st.playlists.length sels 0 st.tracks).2,
         playlists :=
           st.playlists ++ [{ id := st.playlists.length, mood_prompt := mood }],
         playlist_tracks :=
           st.playlist_tracks ++
             (insertLoop st.tracks st.playlists.length sels 0 st.tracks).1,
         cache := none,
         now := st.now }) := by
  unfold generateHandler
  rw [if_neg hmood, hcat, hval]
  rfl

theorem filterMap_entries_positions (snap : List Track) (pid : Nat)
    (l : List (Nat × JVal)) :
    ((l.filterMap (fun p => (resolveSel snap p.2).map (fun tr =>
        ({ playlist_id := pid, track_id := tr.id, position := p.1 + 1,
           weight := jsOr (getField p.2 "weight") (.vnum (1 / 2)) } :
          PlaylistTrack)))).map (fun e => e.position)) =
      (l.filter (fun p => (resolveSel snap p.2).isSome)).map
        (fun p => p.1 + 1) := by
  induction l with
  | nil => rfl
  | cons p ps ih =>
      simp only [one_div] at ih
      cases h : resolveSel snap p.2 <;> simp [h, one_div, ih]

theorem filterMap_entries_weights (snap : List Track) (pid : Nat)
    (l : List (Nat × JVal)) :
    ((l.filterMap (fun p => (resolveSel snap p.2).map (fun tr =>
        ({ playlist_id := pid, track_id := tr.id, position := p.1 + 1,
           weight := jsOr (getField p.2 "weight") (.vnum (1 / 2)) } :
          PlaylistTrack)))).map (fun e => e.weight)) =
      (l.filter (fun p => (resolveSel snap p.2).isSome)).map
        (fun p => jsOr (getField p.2 "weight") (.vnum (1 / 2))) := by
  induction l with
  | nil => rfl
  | cons p ps ih =>
      simp only [one_div] at ih
      cases h : resolveSel snap p.2 <;> simp [h, one_div, ih]

theorem enumFrom_filter_snd_map {β : Type} (P : JVal → Bool) (f : JVal → β) :
    ∀ (i : Nat) (l : List JVal),
      ((List.enumFrom i l).filter (fun p => P p.2)).map (fun p => f p.2) =
        (l.filter P).map f := by
  intro i l
  induction l generalizing i with
  | nil => rfl
  | cons a lr ih => cases h : P a <;> simp [List.enumFrom, h, ih]

theorem mem_enumFrom_le {β : Type} :
    ∀ {i : Nat} {l : List β} {p : Nat × β}, p ∈ List.enumFrom i l → i ≤ p.1 := by
  intro i l
  induction l generalizing i with
  | nil => intro p h; simp [List.enumFrom] at h
  | cons a lr ih =>
      intro p h
      simp only [List.enumFrom, List.mem_cons] at h
      rcases h with h | h
      · subst h; exact Nat.le_refl i
      · exact Nat.le_of_succ_le (ih h)

theorem pairwise_enumFrom_lt {β : Type} (l : List β) :
    ∀ i : Nat, (List.enumFrom i l).Pairwise (fun p q => p.1 < q.1) := by
  induction l with
  | nil => intro i; simp [List.enumFrom]
  | cons a lr ih =>
      intro i
      simp only [List.enumFrom, List.pairwise_cons]
      exact ⟨fun q hq => Nat.lt_of_lt_of_le (Nat.lt_succ_self i)
        (mem_enumFrom_le hq), ih (i + 1)⟩

theorem generate_ok_inv (st : ServerState) (mood : String)
    (parsed : Option JVal) (pl : Playlist) (st2 : ServerState)
    (h : generateHandler st mood parsed = (.ok pl, st2)) :
    ¬jsTrim mood = "" ∧ st.tracks.isEmpty = false ∧
      ∃ sels, validateResponse parsed = some sels := by
  by_cases h1 : jsTrim mood = ""
  · rw [generateHandler, if_pos h1] at h
    exact absurd (congrArg Prod.fst h) (by simp)
  cases hc : st.tracks.isEmpty with
  | true =>
      rw [generateHandler, if_neg h1, hc, if_pos rfl] at h
      exact absurd (congrArg Prod.fst h) (by simp)
  | false =>
      cases hv : validateResponse parsed with
      | none =>
          rw [generateHandler, if_neg h1, hc, hv] at h
          exact absurd (congrArg Prod.fst h) (by simp)
      | some sels => exact ⟨h1, rfl, sels, rfl⟩

theorem generate_ok_cache (st : ServerState) (mood : String)
    (parsed : Option JVal) (pl : Playlist) (st2 : ServerState)
    (h : generateHandler st mood parsed = (.ok pl, st2)) : st2.cache = none := by
  obtain ⟨h1, hc, sels, hv⟩ := generate_ok_inv st mood parsed pl st2 h
  rw [generate_success_spec st mood parsed sels h1 hc hv] at h
  injection h with ha hb
  rw [← hb]

theorem delete_ok_cache (st : ServerState) (id : String) (st2 : ServerState)
    (h : deleteTrackHandler st id = (.ok, st2)) : st2.cache = none := by
  unfold deleteTrackHandler at h
  cases hf : st.tracks.find? (fun t => t.id = id) with
  | none => rw [hf] at h; exact absurd (congrArg Prod.fst h) (by simp)
  | some tr =>
      rw [hf] at h
      injection h with ha hb
      rw [← hb]

theorem stats_cache_none (st : ServerState) (lim : Option String)
    (h : st.cache = none) :
    statsHandler st lim true =
      (.ok (topTracksQuery st.tracks (parseLimit lim)),
       { st with
           cache := some
             ({ snapshot := topTracksQuery st.tracks (parseLimit lim),
                expiry := st.now + 300 } : CacheEntry) }) := by
  unfold statsHandler
  rw [h]
  rfl

theorem generate_count_spec (st : ServerState) (mood : String)
    (parsed : Option JVal) (sels : List JVal) (x : String)
    (hmood : ¬jsTrim mood = "") (hcat : st.tracks.isEmpty = false)
    (hval : validateResponse parsed = some sels) :
    dbCount (generateHandler st mood parsed).2.tracks x =
      if selectedBy sels st.tracks x then
        (dbCount st.tracks x).map (fun n => n + 1)
      else dbCount st.tracks x := by
  rw [generate_success_spec st mood parsed sels hmood hcat hval]
  exact insertLoop_count st.tracks st.playlists.length sels 0 st.tracks x
    (fun s hs => hs)

theorem genSeq_count (x : String) :
    ∀ (steps : List (String × Option JVal)) (st : ServerState) (n : Nat),
      stepsSelect x st steps = true → dbCount st.tracks x = some n →
      dbCount (genSeq st steps).tracks x = some (n + steps.length) := by
  intro steps
  induction steps with
  | nil => intro st n _ hn; simpa [genSeq] using hn
  | cons step rest ih =>
      intro st n hsel hn
      obtain ⟨m, p⟩ := step
      simp only [stepsSelect, Bool.and_eq_true] at hsel
      obtain ⟨⟨⟨hm, hc⟩, hv⟩, hrest⟩ := hsel
      cases hval : validateResponse p with
      | none => rw [hval] at hv; simp at hv
      | some sels =>
          rw [hval] at hv
          have hm2 : ¬jsTrim m = "" := by simpa using hm
          have hc2 : st.tracks.isEmpty = false := by simpa using hc
          have hstep := generate_count_spec st m p sels x hm2 hc2 hval
          have hnext : dbCount (generateHandler st m p).2.tracks x =
              some (n + 1) := by
            rw [hstep, if_pos hv, hn]
            rfl
          have htail := ih (generateHandler st m p).2 (n + 1) hrest hnext
          have hlen : (n + 1) + rest.length = n + (rest.length + 1) := by omega
          rw [hlen] at htail
          simpa [genSeq] using htail

/-! ### Claim theorems -/

/-- C1 counterexample: with a one-track catalog and a backend response whose
only selection references an unknown id (so zero records survive
filtering), generation does not fail with `EmptyPlaylist`: it answers 200
and persists a Playlist record (with no entry records and no counter
change), contradicting the claim that nothing is persisted. -/
theorem C1_counterexample :
    genStatus (generateHandler stateA "calm" (some respUnknown)).1 = 200 ∧
    (generateHandler stateA "calm" (some respUnknown)).2.playlists =
      [{ id := 0, mood_prompt := "calm" }] ∧
    (generateHandler stateA "calm" (some respUnknown)).2.playlist_tracks = [] ∧
    (generateHandler stateA "calm" (some respUnknown)).2.tracks = [trackA] :=
  ⟨rfl, by decide, rfl, by decide⟩

/-- C1 (amended): when zero validated selection records survive filtering
(each references an unknown track id), the generation attempt still
succeeds: exactly one Playlist record is persisted with zero Playlist Entry
records, usage counters are unchanged, and the cache is cleared — there is
no `EmptyPlaylist` failure. -/
theorem C1_amended (st : ServerState) (mood : String) (parsed : Option JVal)
    (sels : List JVal)
    (hmood : ¬jsTrim mood = "") (hcat : st.tracks.isEmpty = false)
    (hval : validateResponse parsed = some sels)
    (hunk : ∀ sel ∈ sels, resolveSel st.tracks sel = none) :
    generateHandler st mood parsed =
      (.ok { id := st.playlists.length, mood_prompt := mood },
       { st with
           playlists :=
             st.playlists ++ [{ id := st.playlists.length, mood_prompt := mood }],
           cache := none }) := by
  rw [generate_success_spec st mood parsed sels hmood hcat hval,
    insertLoop_all_unknown st.tracks st.playlists.length sels 0 st.tracks hunk]
  simp

/-- Witness: the C1 amended behavior at the concrete one-track scenario. -/
theorem C1_witness :
    generateHandler stateA "calm" (some respUnknown) =
      (.ok { id := 0, mood_prompt := "calm" },
       { stateA with
           playlists := [{ id := 0, mood_prompt := "calm" }],
           cache := none }) :=
  C1_amended stateA "calm" (some respUnknown)
    [selRec "ZZZ" (.vnum (9 / 10))] (by decide) (by decide) rfl
    (fun sel hsel => by rw [List.mem_singleton.mp hsel]; decide)

/-- C2 counterexample: catalog `[A]`, validated selections `[unknown, A]`:
one record survives (`K = 1`) but it is persisted with position 2, so the
positions are not the contiguous `1..K` the claim requires. -/
theorem C2_counterexample :
    ((generateHandler stateA "calm" (some respMixed)).2.playlist_tracks.map
        (fun e => e.position)) = [2] ∧
    ¬((generateHandler stateA "calm" (some respMixed)).2.playlist_tracks.map
        (fun e => e.position)) =
      List.range' 1
        (generateHandler stateA "calm"
          (some respMixed)).2.playlist_tracks.length :=
  ⟨rfl, by decide⟩

/-- C2 (amended): each surviving record is persisted with position equal to
its 1-based index in the original validated selection list; the positions
are strictly increasing (original relative order is preserved) but are not
renumbered, so they are not contiguous from 1 when an earlier record was
dropped. -/
theorem C2_amended (st : ServerState) (mood : String) (parsed : Option JVal)
    (sels : List JVal)
    (hmood : ¬jsTrim mood = "") (hcat : st.tracks.isEmpty = false)
    (hval : validateResponse parsed = some sels) :
    ((generateHandler st mood parsed).2.playlist_tracks.map
        (fun e => e.position)) =
      st.playlist_tracks.map (fun e => e.position) ++
        ((List.enumFrom 0 sels).filter
          (fun p => (resolveSel st.tracks p.2).isSome)).map
          (fun p => p.1 + 1) ∧
    List.Pairwise (· < ·)
      (((List.enumFrom 0 sels).filter
          (fun p => (resolveSel st.tracks p.2).isSome)).map
        (fun p => p.1 + 1)) := by
  constructor
  · rw [generate_success_spec st mood parsed sels hmood hcat hval]
    show (st.playlist_tracks ++
        (insertLoop st.tracks st.playlists.length sels 0 st.tracks).1).map
        (fun e => e.position) = _
    rw [List.map_append, insertLoop_entries, filterMap_entries_positions]
  · exact List.Pairwise.map _ (fun a b hab => Nat.succ_lt_succ hab)
      (List.Pairwise.sublist (List.filter_sublist (List.enumFrom 0 sels))
        (pairwise_enumFrom_lt sels 0))

/-- Witness: the C2 amended characterization at the concrete scenario. -/
theorem C2_witness :
    ((generateHandler stateA "calm" (some respMixed)).2.playlist_tracks.map
        (fun e => e.position)) =
      stateA.playlist_tracks.map (fun e => e.position) ++
        ((List.enumFrom 0
            [selRec "ZZZ" (.vnum (9 / 10)), selRec "A" (.vnum (4 / 5))]).filter
          (fun p => (resolveSel stateA.tracks p.2).isSome)).map
          (fun p => p.1 + 1) ∧
    List.Pairwise (· < ·)
      (((List.enumFrom 0
          [selRec "ZZZ" (.vnum (9 / 10)), selRec "A" (.vnum (4 / 5))]).filter
          (fun p => (resolveSel stateA.tracks p.2).isSome)).map
        (fun p => p.1 + 1)) :=
  C2_amended stateA "calm" (some respMixed)
    [selRec "ZZZ" (.vnum (9 / 10)), selRec "A" (.vnum (4 / 5))]
    (by decide) (by decide) rfl

/-- C3 counterexample: a selection of a known track with numeric weight
`0.0` is persisted with weight `0.5`, not `0.0`: `selectedTrack.weight ||
0.5` takes the fallback because the number 0 is falsy. -/
theorem C3_counterexample :
    ((generateHandler stateA "calm"
        (some respZeroWeight)).2.playlist_tracks.map (fun e => e.weight)) =
      [.vnum (1 / 2)] ∧
    ¬(JVal.vnum (1 / 2) = JVal.vnum 0) :=
  ⟨rfl, fun h => by injection h with h; norm_num at h⟩

/-- C3 (amended): for selection records whose weight field is a number or
falsy — the domain on which the `FLOAT` weight column's insert cannot fail
(a truthy non-numeric weight would error the insert and the record would be
dropped by `if (ptError) continue`) — each surviving record's persisted
weight equals the record's weight when that weight is a nonzero number, and
equals `0.5` exactly when the weight field is missing, otherwise falsy, or
the number 0.0. -/
theorem C3_amended (st : ServerState) (mood : String) (parsed : Option JVal)
    (sels : List JVal)
    (hmood : ¬jsTrim mood = "") (hcat : st.tracks.isEmpty = false)
    (hval : validateResponse parsed = some sels)
    (hw : ∀ sel ∈ sels, floatWeight sel = true) :
    ((generateHandler st mood parsed).2.playlist_tracks.map
        (fun e => e.weight)) =
      st.playlist_tracks.map (fun e => e.weight) ++
        (sels.filter (fun sel => (resolveSel st.tracks sel).isSome)).map
          (fun sel =>
            match getField sel "weight" with
            | .vnum q => if q = 0 then .vnum (1 / 2) else .vnum q
            | _ => .vnum (1 / 2)) := by
  rw [generate_success_spec st mood parsed sels hmood hcat hval]
  show (st.playlist_tracks ++
      (insertLoop st.tracks st.playlists.length sels 0 st.tracks).1).map
      (fun e => e.weight) = _
  rw [List.map_append, insertLoop_entries, filterMap_entries_weights]
  have h1 : ((List.enumFrom 0 sels).filter
        (fun p => (resolveSel st.tracks p.2).isSome)).map
        (fun p => jsOr (getField p.2 "weight") (.vnum (1 / 2))) =
      (sels.filter (fun sel => (resolveSel st.tracks sel).isSome)).map
        (fun sel => jsOr (getField sel "weight") (.vnum (1 / 2))) :=
    enumFrom_filter_snd_map (fun sel => (resolveSel st.tracks sel).isSome)
      (fun sel => jsOr (getField sel "weight") (.vnum (1 / 2))) 0 sels
  rw [h1]
  refine congrArg
    (fun z => List.map (fun e => e.weight) st.playlist_tracks ++ z) ?_
  refine List.map_congr_left ?_
  intro sel hsel
  have hws := hw sel (List.mem_of_mem_filter hsel)
  unfold floatWeight at hws
  cases hget : getField sel "weight" with
  | vundefined => simp [jsOr, truthy, hget]
  | vnull => simp [jsOr, truthy, hget]
  | vbool b =>
      rw [hget] at hws
      have hb : b = false := by simpa [truthy] using hws
      subst hb
      simp [jsOr, truthy, hget]
  | vnum q =>
      by_cases hq : q = 0
      · subst hq
        simp [jsOr, truthy, hget]
      · simp [jsOr, truthy, hget, hq]
  | vstr s =>
      rw [hget] at hws
      have hs : s = "" := by simpa [truthy] using hws
      subst hs
      simp [jsOr, truthy, hget]
  | varr xs =>
      rw [hget] at hws
      simp [truthy] at hws
  | vobj kvs =>
      rw [hget] at hws
      simp [truthy] at hws

/-- Witness: the C3 amended weight law at the concrete zero-weight
scenario (a numeric weight, so the record is in the stated domain). -/
theorem C3_witness :
    ((generateHandler stateA "calm"
        (some respZeroWeight)).2.playlist_tracks.map (fun e => e.weight)) =
      stateA.playlist_tracks.map (fun e => e.weight) ++
        (([selRec "A" (.vnum 0)]).filter
          (fun sel => (resolveSel stateA.tracks sel).isSome)).map
          (fun sel =>
            match getField sel "weight" with
            | .vnum q => if q = 0 then .vnum (1 / 2) else .vnum q
            | _ => .vnum (1 / 2)) :=
  C3_amended stateA "calm" (some respZeroWeight) [selRec "A" (.vnum 0)]
    (by decide) (by decide) rfl
    (fun sel hsel => by rw [List.mem_singleton.mp hsel]; decide)

/-- C4 counterexample: the parseable response `{"tracks": []}` passes
validation (an empty array is truthy and `Array.isArray` of it holds), and
generation then answers 200 and persists a playlist — the claim that an
empty sequence is rejected with `InvalidGenerationResponse` and that no
playlist is created fails. -/
theorem C4_counterexample :
    validateResponse (some respEmpty) = some [] ∧
    genStatus (generateHandler stateA "calm" (some respEmpty)).1 = 200 ∧
    (generateHandler stateA "calm" (some respEmpty)).2.playlists =
      [{ id := 0, mood_prompt := "calm" }] :=
  ⟨rfl, rfl, by decide⟩

/-- C4 (amended): validation fails exactly when the text is unparseable as
structured data or the top-level `tracks` field is absent or not a
sequence; an empty sequence is NOT rejected — it is accepted and produces
a persisted playlist with zero entries. -/
theorem C4_amended :
    validateResponse none = none ∧
    (∀ v, validateResponse (some v) = none ↔
      isArray (getField v "tracks") = false) ∧
    (∀ st mood, ¬jsTrim mood = "" → st.tracks.isEmpty = false →
      generateHandler st mood (some respEmpty) =
        (.ok { id := st.playlists.length, mood_prompt := mood },
         { st with
             playlists := st.playlists ++
               [{ id := st.playlists.length, mood_prompt := mood }],
             cache := none })) := by
  refine ⟨rfl, ?_, ?_⟩
  · intro v
    unfold validateResponse
    cases h : getField v "tracks" <;> simp [truthy, isArray, h]
  · intro st mood hmood hcat
    rw [generate_success_spec st mood (some respEmpty) [] hmood hcat rfl]
    simp [insertLoop]

/-- Witness: the C4 amended behavior — an empty `tracks` array is accepted
at the concrete scenario and the produced playlist has no entries. -/
theorem C4_witness :
    generateHandler stateA "calm" (some respEmpty) =
      (.ok { id := 0, mood_prompt := "calm" },
       { stateA with
           playlists := [{ id := 0, mood_prompt := "calm" }],
           cache := none }) :=
  C4_amended.2.2 stateA "calm" (by decide) (by decide)

/-- C5: for every empty or whitespace-only mood string, and for every
attempt against an empty catalog, generation is refused with a 400 client
error, the whole server state (database and cache) is returned unchanged,
and the outcome is independent of the generative backend's response — so
no external call or persistence write can be observed. -/
theorem C5_confirmed (st : ServerState) (mood : String)
    (h : jsTrim mood = "" ∨ st.tracks = []) :
    ∃ msg, genStatus (.badRequest msg) = 400 ∧
      ∀ parsed, generateHandler st mood parsed = (.badRequest msg, st) := by
  by_cases h1 : jsTrim mood = ""
  · refine ⟨"Mood prompt is required", rfl, fun parsed => ?_⟩
    rw [generateHandler, if_pos h1]
  · have hcat : st.tracks = [] := h.resolve_left h1
    refine ⟨"No tracks available. Please upload some music first.", rfl,
      fun parsed => ?_⟩
    rw [generateHandler, if_neg h1, hcat]
    rfl

/-- Witness: C5 at a concrete whitespace-only mood. -/
theorem C5_witness :
    ∃ msg, genStatus (.badRequest msg) = 400 ∧
      ∀ parsed, generateHandler stateA "   " parsed =
        (.badRequest msg, stateA) :=
  C5_confirmed stateA "   " (Or.inl (by decide))

/-- C6: after every successful playlist generation and after every
successful track deletion the top-tracks cache entry is cleared, so the
next top-tracks read (at any later instant, in particular within the
previous snapshot's TTL window) recomputes from the updated catalog
instead of serving a cached snapshot. -/
theorem C6_confirmed :
    (∀ st mood parsed pl st2,
      generateHandler st mood parsed = (.ok pl, st2) →
      st2.cache = none ∧
      ∀ lim dt, (statsHandler { st2 with now := st2.now + dt } lim true).1 =
        .ok (topTracksQuery st2.tracks (parseLimit lim))) ∧
    (∀ st id st2, deleteTrackHandler st id = (.ok, st2) →
      st2.cache = none ∧
      ∀ lim dt, (statsHandler { st2 with now := st2.now + dt } lim true).1 =
        .ok (topTracksQuery st2.tracks (parseLimit lim))) := by
  constructor
  · intro st mood parsed pl st2 h
    have hc := generate_ok_cache st mood parsed pl st2 h
    refine ⟨hc, fun lim dt => ?_⟩
    rw [stats_cache_none { st2 with now := st2.now + dt } lim hc]
  · intro st id st2 h
    have hc := delete_ok_cache st id st2 h
    refine ⟨hc, fun lim dt => ?_⟩
    rw [stats_cache_none { st2 with now := st2.now + dt } lim hc]

/-- Witness: C6 after a concrete successful generation, read back 1 second
later (well within the 300-second TTL). -/
theorem C6_witness :
    (generateHandler stateA "calm" (some respMixed)).2.cache = none ∧
    (statsHandler
        { (generateHandler stateA "calm" (some respMixed)).2 with
            now := (generateHandler stateA "calm" (some respMixed)).2.now + 1 }
        (some "3") true).1 =
      .ok (topTracksQuery
        (generateHandler stateA "calm" (some respMixed)).2.tracks
        (parseLimit (some "3"))) :=
  ⟨(C6_confirmed.1 stateA "calm" (some respMixed)
      { id := 0, mood_prompt := "calm" } _ rfl).1,
   (C6_confirmed.1 stateA "calm" (some respMixed)
      { id := 0, mood_prompt := "calm" } _ rfl).2 (some "3") 1⟩

/-- C7 counterexample: one generation whose validated response selects
track A twice: the created playlist's entry list holds two appearances of
A, yet A's usage counter rises from 0 to 1, not to 2 — the increment is
not per appearance. -/
theorem C7_counterexample :
    ((generateHandler stateA "calm" (some respDup)).2.playlist_tracks.map
        (fun e => e.track_id)) = ["A", "A"] ∧
    dbCount (generateHandler stateA "calm" (some respDup)).2.tracks "A" =
      some 1 ∧
    ¬dbCount (generateHandler stateA "calm" (some respDup)).2.tracks "A" =
      some 2 :=
  ⟨by decide, by decide, by decide⟩

/-- C7 (amended): during one successful generation, a track's usage counter
is incremented by exactly 1 when at least one surviving selection
references it — once per playlist, not once per appearance, because every
update writes the pre-generation snapshot count plus one; consequently a
track selected in each of K sequentially generated playlists ends with its
counter increased by exactly K. -/
theorem C7_amended :
    (∀ st mood parsed sels x, ¬jsTrim mood = "" →
      st.tracks.isEmpty = false → validateResponse parsed = some sels →
      dbCount (generateHandler st mood parsed).2.tracks x =
        if selectedBy sels st.tracks x then
          (dbCount st.tracks x).map (fun n => n + 1)
        else dbCount st.tracks x) ∧
    (∀ steps st x n, stepsSelect x st steps = true →
      dbCount st.tracks x = some n →
      dbCount (genSeq st steps).tracks x = some (n + steps.length)) :=
  ⟨fun st mood parsed sels x hmood hcat hval =>
      generate_count_spec st mood parsed sels x hmood hcat hval,
   fun steps st x n hsel hn => genSeq_count x steps st n hsel hn⟩

/-- Witness: C7 at concrete inputs — the duplicate-selection generation
increments A's counter once, and a one-step sequence increments it by its
length. -/
theorem C7_witness :
    (dbCount (generateHandler stateA "calm" (some respDup)).2.tracks "A" =
      if selectedBy [selRec "A" (.vnum (9 / 10)), selRec "A" (.vnum (4 / 5))]
          stateA.tracks "A" then
        (dbCount stateA.tracks "A").map (fun n => n + 1)
      else dbCount stateA.tracks "A") ∧
    dbCount (genSeq stateA [("calm", some respMixed)]).tracks "A" =
      some (0 + 1) :=
  ⟨C7_amended.1 stateA "calm" (some respDup)
      [selRec "A" (.vnum (9 / 10)), selRec "A" (.vnum (4 / 5))] "A"
      (by decide) (by decide) rfl,
   C7_amended.2 [("calm", some respMixed)] stateA "A" 0 (by decide)
      (by decide)⟩

/-- C8 counterexample: with the caching layer unreachable, the top-tracks
request fails with a 500 instead of succeeding with the recomputed
top-list — cache unavailability does cause the request to fail. -/
theorem C8_counterexample :
    statsStatus (statsHandler stateA none false).1 = 500 ∧
    ¬(statsHandler stateA none false).1 =
      .ok (topTracksQuery stateA.tracks (parseLimit none)) :=
  ⟨rfl, by decide⟩

/-- C8 (amended): when the caching layer is unreachable the read path does
NOT degrade to recomputation: the rejected cache read propagates to the
catch-all handler, which answers 500 and leaves the state unchanged. -/
theorem C8_amended (st : ServerState) (lim : Option String) :
    statsHandler st lim false = (.serverError, st) ∧
    statsStatus (statsHandler st lim false).1 = 500 :=
  ⟨rfl, rfl⟩

/-- Witness: C8 at the concrete state. -/
theorem C8_witness :
    statsHandler stateA none false = (.serverError, stateA) ∧
    statsStatus (statsHandler stateA none false).1 = 500 :=
  C8_amended stateA none

/-- C9 counterexample: fetching the nonexistent playlist id 7 answers 500,
not the claimed 404. -/
theorem C9_counterexample :
    playlistFetchStatus (getPlaylistHandler stateA 7) = 500 ∧
    ¬playlistFetchStatus (getPlaylistHandler stateA 7) = 404 :=
  ⟨rfl, by decide⟩

/-- C9 (amended): a delete of an unknown track id answers 404, but a read
of an unknown playlist id rethrows the `.single()` error and answers 500,
not 404. -/
theorem C9_amended :
    (∀ st id, st.tracks.find? (fun t => t.id = id) = none →
      deleteTrackHandler st id = (.notFound, st) ∧
      deleteStatus (deleteTrackHandler st id).1 = 404) ∧
    (∀ st pid, st.playlists.find? (fun p => p.id = pid) = none →
      getPlaylistHandler st pid = .serverError ∧
      playlistFetchStatus (getPlaylistHandler st pid) = 500) := by
  constructor
  · intro st id h
    have heq : deleteTrackHandler st id = (.notFound, st) := by
      unfold deleteTrackHandler
      rw [h]
    exact ⟨heq, by rw [heq]; rfl⟩
  · intro st pid h
    have heq : getPlaylistHandler st pid = .serverError := by
      unfold getPlaylistHandler
      rw [h]
    exact ⟨heq, by rw [heq]; rfl⟩

/-- Witness: C9 at concrete unknown ids. -/
theorem C9_witness :
    (deleteTrackHandler stateA "nope" = (.notFound, stateA) ∧
      deleteStatus (deleteTrackHandler stateA "nope").1 = 404) ∧
    (getPlaylistHandler stateA 7 = .serverError ∧
      playlistFetchStatus (getPlaylistHandler stateA 7) = 500) :=
  ⟨C9_amended.1 stateA "nope" (by decide), C9_amended.2 stateA 7 rfl⟩

/-- C10: on a hit (entry present and unexpired) the cached snapshot is
returned exactly as stored with the state untouched, for every value of
the limit parameter; the parsed limit — with `0` and fully non-numeric
strings (and an absent parameter) falling back to 10 — only bounds the
list recomputed on a miss. -/
theorem C10_confirmed :
    (∀ st lim entry, st.cache = some entry → st.now < entry.expiry →
      statsHandler st lim true = (.ok entry.snapshot, st)) ∧
    (∀ st lim, st.cache = none →
      (statsHandler st lim true).1 =
        .ok (topTracksQuery st.tracks (parseLimit lim))) ∧
    parseLimit (some "0") = 10 ∧
    (∀ s, parseIntJs s = none → parseLimit (some s) = 10) ∧
    parseLimit none = 10 ∧
    (∀ db n, (topTracksQuery db n).length ≤ n.toNat) := by
  refine ⟨?_, ?_, rfl, ?_, rfl, ?_⟩
  · intro st lim entry hc hfresh
    unfold statsHandler
    rw [hc]
    simp [hfresh]
  · intro st lim hc
    rw [stats_cache_none st lim hc]
  · intro s h
    simp only [parseLimit, h]
  · intro db n
    unfold topTracksQuery
    exact List.length_take_le _ _

/-- Witness: C10 at concrete states — the stale-but-unexpired snapshot is
served verbatim despite a limit of 1, and a miss recomputes with the
parsed limit. -/
theorem C10_witness :
    statsHandler cachedState (some "1") true = (.ok [trackA], cachedState) ∧
    (statsHandler stateA (some "5") true).1 =
      .ok (topTracksQuery stateA.tracks (parseLimit (some "5"))) ∧
    parseLimit (some "abc") = 10 ∧
    (topTracksQuery [trackB] 1).length ≤ (1 : Int).toNat :=
  ⟨C10_confirmed.1 cachedState (some "1")
      { snapshot := [trackA], expiry := 100 } rfl (by decide),
   C10_confirmed.2.1 stateA (some "5") rfl,
   C10_confirmed.2.2.2.1 "abc" (by decide),
   C10_confirmed.2.2.2.2.2 [trackB] 1⟩

end MusicDJ
